import Mathlib

/-!
Verification development for the DNS health checker
(`dns_health_checker.py`): a shallow embedding of the record-fetch and
policy-classification engine, followed by theorems about it.

String operations from the Python source are modelled on `List Char`:
`str.lower` becomes `toLowerStr` (ASCII case folding, the only case that
occurs in the checked tokens), the `in` substring test becomes
`containsSub`, the startswith test becomes `strStarts`, the strip of
double quotes becomes `stripQuotes`, the rstrip of dots becomes
`rstripDots`, and the whitespace strip becomes `stripWs`.
-/

/-- Model of Python `str.lower()` (ASCII case folding on each character). -/
def toLowerStr (s : String) : String := String.mk (s.data.map Char.toLower)

/-- Predicate modelling the Python in-operator on character lists:
`listHasInfix pat l` holds when `pat` occurs contiguously inside `l`. -/
def listHasInfix (pat : List Char) : List Char → Bool
  | [] => pat.isEmpty
  | c :: t => pat.isPrefixOf (c :: t) || listHasInfix pat t

/-- Model of Python `pat in s` for strings. -/
def containsSub (s pat : String) : Bool := listHasInfix pat.data s.data

/-- Model of Python `s.startswith(pat)`. -/
def strStarts (s pat : String) : Bool := pat.data.isPrefixOf s.data

/-- Double-quote character class used by the TXT payload unwrapping. -/
def isQuote (c : Char) : Bool := c == '"'

/-- Model of the Python strip of double quotes (line 27 of the source):
removes the maximal leading run and the maximal trailing run of
double-quote characters. -/
def stripQuotes (s : String) : String :=
  String.mk (((s.data.dropWhile isQuote).reverse.dropWhile isQuote).reverse)

/-- Model of the Python rstrip of dots (line 54 of the source): removes
the maximal trailing run of dots. -/
def rstripDots (s : String) : String :=
  String.mk ((s.data.reverse.dropWhile (fun c => c == '.')).reverse)

/-- Model of Python `s.strip()`: removes leading and trailing whitespace. -/
def stripWs (l : List Char) : List Char :=
  ((l.dropWhile Char.isWhitespace).reverse.dropWhile Char.isWhitespace).reverse

/-- Outcome of one DNS resolution attempt, as distinguished by the
`try`/`except` arms of `fetch_txt_record` and `fetch_mx_records`:
a successful answer list, `NXDOMAIN`, `NoAnswer`, `Timeout`, or any
other exception. -/
inductive DnsOutcome (α : Type) where
  | success (answers : List α)
  | nxdomain
  | noAnswer
  | timeout
  | otherError (msg : String)

/-- Model of fetch_txt_record (source lines 19-45): on success each raw TXT
payload is unwrapped by stripping its double quotes; every failure arm
returns the empty list. Status-placeholder text output is presentation-layer and not
modelled. -/
def fetch_txt_record (outcome : DnsOutcome String) : List String :=
  match outcome with
  | .success answers => answers.map stripQuotes
  | .nxdomain => []
  | .noAnswer => []
  | .timeout => []
  | .otherError _ => []

/-- Model of fetch_mx_records (source lines 47-72): on success each answer
becomes the pair of its preference and its exchange host with trailing
dots removed; every failure arm returns the empty list. -/
def fetch_mx_records (outcome : DnsOutcome (Nat × String)) : List (Nat × String) :=
  match outcome with
  | .success answers => answers.map (fun r => (r.1, rstripDots r.2))
  | .nxdomain => []
  | .noAnswer => []
  | .timeout => []
  | .otherError _ => []

/-- SPF finding dictionary (source line 93). -/
structure SpfFinding where
  present : Bool
  policy : String
  reasoning : String
  recommendation : String

/-- The initial SPF dictionary of source line 93. -/
def spfDefault : SpfFinding :=
  { present := false
    policy := "Missing"
    reasoning := "SPF missing—exposes you to spoofing. A -all policy blocks unauthorized senders."
    recommendation := "Add v=spf1 -all for top-tier security" }

/-- One iteration of the SPF loop (source lines 94-104): a record whose
lowercase form begins with `v=spf1` marks presence and, when it contains
`-all` (or else `~all`), overwrites the classification. -/
def spfStep (spf : SpfFinding) (txt : String) : SpfFinding :=
  if strStarts (toLowerStr txt) "v=spf1" then
    if containsSub (toLowerStr txt) "-all" then
      { spf with
        present := true
        policy := "-all"
        reasoning := "Strong -all policy in place, minimizing spoofing risks."
        recommendation := "Perfect—maintain and monitor!" }
    else if containsSub (toLowerStr txt) "~all" then
      { spf with
        present := true
        policy := "~all"
        reasoning := "~all soft-fails but allows some spoofing. Upgrade for full protection."
        recommendation := "Switch to -all to lock it down." }
    else { spf with present := true }
  else spf

/-- The SPF analysis of `analyze_records` (source lines 93-104) applied to
the fetched TXT records. -/
def analyzeSpf (records : List String) : SpfFinding :=
  records.foldl spfStep spfDefault

/-- DMARC finding dictionary (source line 108). -/
structure DmarcFinding where
  present : Bool
  policy : String
  reasoning : String
  recommendation : String

/-- The initial DMARC dictionary of source line 108. -/
def dmarcDefault : DmarcFinding :=
  { present := false
    policy := "Missing"
    reasoning := "No DMARC means no email authentication—clients could be spoofed easily."
    recommendation := "Add v=DMARC1; p=reject for robust defense" }

/-- Python `\w` character class over the ASCII range. -/
def isWordChar (c : Char) : Bool := c.isAlpha || c.isDigit || c == '_'

/-- Fuel-indexed scan implementing the findall of the regular expression
(\w+)=([^;]+) over txt (source line 112): at each position try to match a maximal word-character
run, a literal `=`, and a maximal non-empty run of non-semicolon
characters; on success emit the pair and resume after the match, on
failure advance one character. Every step consumes at least one character,
so fuel equal to the input length never runs out. -/
def findPairsGo : Nat → List Char → List (List Char × List Char)
  | 0, _ => []
  | _, [] => []
  | fuel + 1, c :: rest =>
    if isWordChar c then
      match rest.dropWhile isWordChar with
      | '=' :: r2 =>
        if (r2.takeWhile (fun d => !(d == ';'))).isEmpty then
          findPairsGo fuel rest
        else
          (c :: rest.takeWhile isWordChar, r2.takeWhile (fun d => !(d == ';'))) ::
            findPairsGo fuel (r2.dropWhile (fun d => !(d == ';')))
      | _ => findPairsGo fuel rest
    else findPairsGo fuel rest

/-- Model of the regex findall of source line 112 on the characters of
the record text. -/
def findPairs (cs : List Char) : List (List Char × List Char) :=
  findPairsGo cs.length cs

/-- Model of `{k.strip(): v.strip() for k, v in pairs}.get(key, dflt)`
(source lines 113-114): later pairs overwrite earlier ones, so the last
binding of `key` wins. -/
def detailsGet (pairs : List (String × String)) (key dflt : String) : String :=
  match pairs.reverse.find? (fun p => p.1 = key) with
  | some p => p.2
  | none => dflt

/-- One iteration of the DMARC loop (source lines 109-116): a record whose
lowercase form contains `v=dmarc1` marks presence, extracts `p` from the
`key=value` pairs of the original-case text (defaulting to `none`), and
rebuilds reasoning and recommendation from that policy. -/
def dmarcStep (dmarc : DmarcFinding) (txt : String) : DmarcFinding :=
  if containsSub (toLowerStr txt) "v=dmarc1" then
    let details := (findPairs txt.data).map
      (fun p => (String.mk (stripWs p.1), String.mk (stripWs p.2)))
    let policy := detailsGet details "p" "none"
    { present := true
      policy := policy
      reasoning := policy ++ " policy detected—" ++
        (if policy = "reject" then "great for blocking fakes"
         else "vulnerable to spoofing, upgrade needed") ++ "."
      recommendation :=
        if policy = "reject" then "Monitor reports"
        else "Upgrade to reject for max security." }
  else dmarc

/-- The DMARC analysis of `analyze_records` (source lines 108-116). -/
def analyzeDmarc (records : List String) : DmarcFinding :=
  records.foldl dmarcStep dmarcDefault

/-- DKIM finding dictionary (source line 130). -/
structure DkimFinding where
  present : Bool
  count : Nat
  selectors : List String
  reasoning : String
  recommendation : String

/-- The hard-coded DKIM selector probe list (source line 119). -/
def common_selectors : List String := ["google", "default", "selector1", "selector2"]

/-- The predicate of the DKIM inner loop: the lowercase text contains
`v=dkim1` (source line 126). -/
def dkimMatches (txt : String) : Bool := containsSub (toLowerStr txt) "v=dkim1"

/-- One iteration of the inner DKIM loop (source lines 125-129) over the
running state `(count, selectors, present)`. -/
def dkimRecordStep (selector : String) (st : Nat × List String × Bool)
    (txt : String) : Nat × List String × Bool :=
  if dkimMatches txt then
    (st.1 + 1,
     st.2.1 ++ [selector ++ ": " ++ String.mk (txt.data.take 50) ++ "..."],
     true)
  else st

/-- One iteration of the outer DKIM loop (source lines 123-129): fold the
inner loop over the TXT records fetched for one selector. -/
def dkimSelectorStep (fetch : String → List String)
    (st : Nat × List String × Bool) (selector : String) : Nat × List String × Bool :=
  (fetch selector).foldl (dkimRecordStep selector) st

/-- The DKIM analysis of `analyze_records` (source lines 119-132), with
the per-selector TXT fetch abstracted as `fetch`. -/
def analyzeDkim (fetch : String → List String) : DkimFinding :=
  let r := common_selectors.foldl (dkimSelectorStep fetch) (0, [], false)
  { present := r.2.2
    count := r.1
    selectors := r.2.1
    reasoning :=
      if r.2.2 then "DKIM present with valid records, enhancing email trust."
      else "DKIM missing—emails lack sender verification, hurting trust."
    recommendation :=
      if r.2.2 then "Maintain and rotate keys annually"
      else "Add selectors for verified sending" }

/-- MX finding dictionary (source line 143): the transport map `tls` is an
association list host ↦ tri-state probe result (`some true` = TLS
confirmed, `some false` = declined, `none` = inconclusive, the Python
`None`). -/
structure MxFinding where
  present : Bool
  records : List (Nat × String)
  tls : List (String × Option Bool)
  reasoning : String
  recommendation : String

/-- Construction of the MX dictionary (source lines 143-149) from the
fetched records and the probed transport map. -/
def buildMxFinding (mx_records : List (Nat × String))
    (mx_tls : List (String × Option Bool)) : MxFinding :=
  { present := !mx_records.isEmpty
    records := mx_records
    tls := mx_tls
    reasoning :=
      if mx_records.isEmpty then "No MX records—email delivery will fail."
      else if mx_records.length = 1 then
        "Single MX record detected—consider adding a backup for redundancy."
      else "Multiple MX records with priorities—good redundancy, but check target security."
    recommendation :=
      if mx_records.isEmpty then "Add MX records to enable email."
      else if mx_records.length = 1 then
        "Add a secondary MX with higher priority (e.g., 20)."
      else "Verify TLS support on all MX targets (see report)." }

/-- BIMI finding dictionary (source line 153). -/
structure BimiFinding where
  present : Bool
  record : Option String
  reasoning : String
  recommendation : String

/-- The initial BIMI dictionary of source line 153. -/
def bimiDefault : BimiFinding :=
  { present := false
    record := none
    reasoning := "BIMI missing—missed chance to brand emails."
    recommendation := "Add v=bimi1 record for email branding." }

/-- One iteration of the BIMI loop (source lines 154-159). -/
def bimiStep (bimi : BimiFinding) (txt : String) : BimiFinding :=
  if strStarts (toLowerStr txt) "v=bimi1" then
    { present := true
      record := some txt
      reasoning := "BIMI present—emails can display your logo."
      recommendation := "Ensure logo is uploaded and policy complies." }
  else bimi

/-- The BIMI analysis of `analyze_records` (source lines 152-159). -/
def analyzeBimi (records : List String) : BimiFinding :=
  records.foldl bimiStep bimiDefault

/-- MTA-STS finding dictionary (source line 163). -/
structure MtaStsFinding where
  present : Bool
  record : Option String
  reasoning : String
  recommendation : String

/-- The initial MTA-STS dictionary of source line 163. -/
def mtaStsDefault : MtaStsFinding :=
  { present := false
    record := none
    reasoning := "MTA-STS missing—email lacks TLS enforcement."
    recommendation := "Add v=sts1 record for TLS security." }

/-- One iteration of the MTA-STS loop (source lines 164-169). -/
def mtaStsStep (mta_sts : MtaStsFinding) (txt : String) : MtaStsFinding :=
  if strStarts (toLowerStr txt) "v=sts1" then
    { present := true
      record := some txt
      reasoning := "MTA-STS present—TLS enforcement active."
      recommendation := "Monitor and maintain STS policy." }
  else mta_sts

/-- The MTA-STS analysis of `analyze_records` (source lines 162-169). -/
def analyzeMtaSts (records : List String) : MtaStsFinding :=
  records.foldl mtaStsStep mtaStsDefault

/-- DMARC contribution of `compute_score` (source lines 176-182). -/
def dmarcPoints (dmarc : DmarcFinding) : Int :=
  if dmarc.present then
    if dmarc.policy = "reject" then 40
    else if dmarc.policy = "quarantine" then 30
    else 20
  else 0

/-- DKIM contribution of `compute_score` (source lines 183-184). -/
def dkimPoints (dkim : DkimFinding) : Int :=
  if dkim.present then 30 else 0

/-- SPF contribution of `compute_score` (source lines 185-189). -/
def spfPoints (spf : SpfFinding) : Int :=
  if spf.present then
    if spf.policy = "-all" then 30 else 20
  else 0

/-- The guard of the transport bonus (source line 194): Python
`all(mx["tls"].get(host, False) for host in mx["tls"])`, where iterating
the dict visits every stored entry, so each generated element is the
truthiness of the stored tri-state value (`True` is the only truthy one). -/
def tlsAllTrue (tls : List (String × Option Bool)) : Bool :=
  tls.all (fun p => p.2.getD false)

/-- MX base presence points of `compute_score` (source lines 190-191). -/
def mxBase (mx : MxFinding) : Int :=
  if mx.present then 10 else 0

/-- MX redundancy bonus of `compute_score` (source lines 192-193). -/
def mxRedundancyBonus (mx : MxFinding) : Int :=
  if mx.present then (if mx.records.length > 1 then 10 else 0) else 0

/-- MX transport bonus of `compute_score` (source lines 194-195). -/
def mxTransportBonus (mx : MxFinding) : Int :=
  if mx.present then (if tlsAllTrue mx.tls then 10 else 0) else 0

/-- Total MX contribution of `compute_score` (source lines 190-195). -/
def mxPoints (mx : MxFinding) : Int :=
  mxBase mx + mxRedundancyBonus mx + mxTransportBonus mx

/-- BIMI contribution of `compute_score` (source lines 196-197). -/
def bimiPoints (bimi : BimiFinding) : Int :=
  if bimi.present then 5 else 0

/-- MTA-STS contribution of `compute_score` (source lines 198-199). -/
def mtaStsPoints (mta_sts : MtaStsFinding) : Int :=
  if mta_sts.present then 5 else 0

/-- Model of compute_score (source lines 174-200): sum of the per-mechanism
contributions that the Python accumulator adds, clamped by
`min(score, 100)`. -/
def compute_score (dmarc : DmarcFinding) (dkim : DkimFinding) (spf : SpfFinding)
    (mx : MxFinding) (bimi : BimiFinding) (mta_sts : MtaStsFinding) : Int :=
  min (dmarcPoints dmarc + dkimPoints dkim + spfPoints spf + mxPoints mx +
    bimiPoints bimi + mtaStsPoints mta_sts) 100

/-! Score lemmas -/

theorem dmarcPoints_nonneg (d : DmarcFinding) : 0 ≤ dmarcPoints d := by
  unfold dmarcPoints; split_ifs <;> norm_num

theorem dkimPoints_nonneg (k : DkimFinding) : 0 ≤ dkimPoints k := by
  unfold dkimPoints; split_ifs <;> norm_num

theorem spfPoints_nonneg (s : SpfFinding) : 0 ≤ spfPoints s := by
  unfold spfPoints; split_ifs <;> norm_num

theorem mxPoints_nonneg (m : MxFinding) : 0 ≤ mxPoints m := by
  unfold mxPoints mxBase mxRedundancyBonus mxTransportBonus
  split_ifs <;> norm_num

theorem bimiPoints_nonneg (b : BimiFinding) : 0 ≤ bimiPoints b := by
  unfold bimiPoints; split_ifs <;> norm_num

theorem mtaStsPoints_nonneg (t : MtaStsFinding) : 0 ≤ mtaStsPoints t := by
  unfold mtaStsPoints; split_ifs <;> norm_num

theorem dmarcPoints_dvd (d : DmarcFinding) : (5 : Int) ∣ dmarcPoints d := by
  unfold dmarcPoints; split_ifs <;> decide

theorem dkimPoints_dvd (k : DkimFinding) : (5 : Int) ∣ dkimPoints k := by
  unfold dkimPoints; split_ifs <;> decide

theorem spfPoints_dvd (s : SpfFinding) : (5 : Int) ∣ spfPoints s := by
  unfold spfPoints; split_ifs <;> decide

theorem mxPoints_dvd (m : MxFinding) : (5 : Int) ∣ mxPoints m := by
  unfold mxPoints mxBase mxRedundancyBonus mxTransportBonus
  split_ifs <;> decide

theorem bimiPoints_dvd (b : BimiFinding) : (5 : Int) ∣ bimiPoints b := by
  unfold bimiPoints; split_ifs <;> decide

theorem mtaStsPoints_dvd (t : MtaStsFinding) : (5 : Int) ∣ mtaStsPoints t := by
  unfold mtaStsPoints; split_ifs <;> decide

/-- The tri-state truthiness test of the transport bonus holds exactly
when every stored probe result is `some true`. -/
theorem tlsAllTrue_iff (tls : List (String × Option Bool)) :
    tlsAllTrue tls = true ↔ ∀ p ∈ tls, p.2 = some true := by
  unfold tlsAllTrue
  rw [List.all_eq_true]
  refine forall_congr' fun p => forall_congr' fun _ => ?_
  cases p.2 with
  | none => simp
  | some b => cases b <;> simp

/-! Scenario findings for the maximal-stacking end-to-end case -/

/-- DMARC `reject` finding obtained by parsing a concrete record. -/
def c1Dmarc : DmarcFinding := analyzeDmarc ["v=DMARC1; p=reject; rua=mailto:a@b.c"]

/-- DKIM finding with two matched selectors obtained from a concrete probe map. -/
def c1Dkim : DkimFinding :=
  analyzeDkim (fun s =>
    if s = "selector1" || s = "selector2" then ["v=DKIM1; k=rsa; p=ABC"] else [])

/-- SPF `-all` finding obtained by parsing a concrete record. -/
def c1Spf : SpfFinding := analyzeSpf ["v=spf1 include:_spf.example.com -all"]

/-- MX finding with two records, both transport-true. -/
def c1Mx : MxFinding :=
  buildMxFinding [(10, "mx1.example.com"), (20, "mx2.example.com")]
    [("mx1.example.com", some true), ("mx2.example.com", some true)]

/-- Absent BIMI finding (no records fetched). -/
def c1Bimi : BimiFinding := analyzeBimi []

/-- Absent MTA-STS finding (no records fetched). -/
def c1MtaSts : MtaStsFinding := analyzeMtaSts []

/-- Claim C1: for every combination of findings `compute_score` returns an
integer in `[0, 100]`, and in the maximal-stacking scenario (SPF `-all`,
DMARC `reject`, DKIM present, two MX records both transport-true, BIMI and
MTA-STS absent) the unclamped contributions sum to 130 and the returned
score is exactly 100. -/
theorem claim_C1 :
    (∀ (d : DmarcFinding) (k : DkimFinding) (s : SpfFinding) (m : MxFinding)
        (b : BimiFinding) (t : MtaStsFinding),
      0 ≤ compute_score d k s m b t ∧ compute_score d k s m b t ≤ 100)
    ∧ (dmarcPoints c1Dmarc + dkimPoints c1Dkim + spfPoints c1Spf + mxPoints c1Mx +
        bimiPoints c1Bimi + mtaStsPoints c1MtaSts = 130
      ∧ compute_score c1Dmarc c1Dkim c1Spf c1Mx c1Bimi c1MtaSts = 100) := by
  refine ⟨fun d k s m b t => ⟨?_, min_le_right _ _⟩, by decide⟩
  unfold compute_score
  refine le_min ?_ (by norm_num)
  have h1 := dmarcPoints_nonneg d
  have h2 := dkimPoints_nonneg k
  have h3 := spfPoints_nonneg s
  have h4 := mxPoints_nonneg m
  have h5 := bimiPoints_nonneg b
  have h6 := mtaStsPoints_nonneg t
  omega

/-- Claim C2 counterexample: with MX present and an EMPTY transport map the
code still grants the +10 transport bonus (Python `all` over an empty dict
is `True`), so the whole score is 20 (10 base + 10 bonus) rather than the
10 the claim predicts. -/
theorem claim_C2_counterexample :
    (buildMxFinding [(10, "mx1.example.com")] []).present = true
    ∧ (buildMxFinding [(10, "mx1.example.com")] []).tls = []
    ∧ mxTransportBonus (buildMxFinding [(10, "mx1.example.com")] []) = 10
    ∧ compute_score (analyzeDmarc []) (analyzeDkim (fun _ => [])) (analyzeSpf [])
        (buildMxFinding [(10, "mx1.example.com")] [])
        (analyzeBimi []) (analyzeMtaSts []) = 20 := by
  decide

/-- Claim C2 (amended): the +10 transport bonus is granted iff the MX
finding is present and every value stored in the transport map is exactly
`some true`; an empty map vacuously satisfies this, so the bonus IS
granted when MX is present with no probed host. -/
theorem claim_C2_amended :
    ∀ mx : MxFinding,
      (mxTransportBonus mx = 10 ↔
        (mx.present = true ∧ ∀ p ∈ mx.tls, p.2 = some true))
      ∧ (mx.present = false → mxTransportBonus mx = 0)
      ∧ (mxTransportBonus mx = 0 ∨ mxTransportBonus mx = 10) := by
  intro mx
  unfold mxTransportBonus
  refine ⟨?_, ?_, ?_⟩
  · constructor
    · intro h
      split_ifs at h with h1 h2
      · exact ⟨h1, (tlsAllTrue_iff mx.tls).mp h2⟩
      · norm_num at h
      · norm_num at h
    · rintro ⟨h1, h2⟩
      rw [if_pos h1, if_pos ((tlsAllTrue_iff mx.tls).mpr h2)]
  · intro h
    rw [if_neg (by simp [h])]
  · split_ifs <;> norm_num

/-- MX finding used to instantiate the amended transport-bonus theorem. -/
def mxW : MxFinding :=
  { present := true
    records := [(10, "mx1.example.com")]
    tls := [("mx1.example.com", some true)]
    reasoning := ""
    recommendation := "" }

/-- Witness for the amended claim C2 at a concrete all-true transport map. -/
theorem claim_C2_amended_witness : mxTransportBonus mxW = 10 :=
  (claim_C2_amended mxW).1.mpr (by decide)

/-- Claim C5: the DMARC contribution to `compute_score` is exactly one of
{0, 20, 30, 40}, is 0 when absent, 40 for `reject`, 30 for `quarantine`,
20 for any other policy while present, and depends only on the pair
`(present, policy)`. -/
theorem claim_C5 :
    ∀ d : DmarcFinding,
      (dmarcPoints d = 0 ∨ dmarcPoints d = 20 ∨ dmarcPoints d = 30 ∨ dmarcPoints d = 40)
      ∧ (d.present = false → dmarcPoints d = 0)
      ∧ (d.present = true → d.policy = "reject" → dmarcPoints d = 40)
      ∧ (d.present = true → d.policy = "quarantine" → dmarcPoints d = 30)
      ∧ (d.present = true → d.policy ≠ "reject" → d.policy ≠ "quarantine" →
          dmarcPoints d = 20)
      ∧ (∀ d' : DmarcFinding, d.present = d'.present → d.policy = d'.policy →
          dmarcPoints d = dmarcPoints d') := by
  intro d
  refine ⟨?_, ?_, ?_, ?_, ?_, ?_⟩
  · unfold dmarcPoints; split_ifs <;> norm_num
  · intro h; unfold dmarcPoints; rw [if_neg (by simp [h])]
  · intro h1 h2
    unfold dmarcPoints; rw [if_pos h1, if_pos h2]
  · intro h1 h2
    unfold dmarcPoints
    rw [if_pos h1, if_neg (by simp [h2]), if_pos h2]
  · intro h1 h2 h3
    unfold dmarcPoints
    rw [if_pos h1, if_neg h2, if_neg h3]
  · intro d' h1 h2
    unfold dmarcPoints
    rw [h1, h2]

/-- Witness for claim C5 at a concrete present/`reject` finding. -/
theorem claim_C5_witness :
    dmarcPoints { present := true, policy := "reject", reasoning := "", recommendation := "" } = 40 :=
  (claim_C5 _).2.2.1 rfl rfl

/-- Claim C10: every value `compute_score` can return is a multiple of 5,
because every weight and bonus is a multiple of 5 and so is the clamp
bound 100. -/
theorem claim_C10 :
    ∀ (d : DmarcFinding) (k : DkimFinding) (s : SpfFinding) (m : MxFinding)
      (b : BimiFinding) (t : MtaStsFinding),
      (5 : Int) ∣ compute_score d k s m b t := by
  intro d k s m b t
  unfold compute_score
  rw [min_def]
  split_ifs
  · exact dvd_add (dvd_add (dvd_add (dvd_add (dvd_add
      (dmarcPoints_dvd d) (dkimPoints_dvd k)) (spfPoints_dvd s))
      (mxPoints_dvd m)) (bimiPoints_dvd b)) (mtaStsPoints_dvd t)
  · decide

/-- Claim C3: evaluation of the SPF parser at a failing input. The record
begins with `v=spf1` (so `present` becomes true) but contains neither
`-all` nor `~all`, and the code leaves `policy` at the `Missing` sentinel
instead of a third bucket distinct from it. -/
theorem claim_C3 :
    (analyzeSpf ["v=spf1 include:example.com ?all"]).present = true
    ∧ (analyzeSpf ["v=spf1 include:example.com ?all"]).policy = "Missing"
    ∧ (analyzeSpf ["v=spf1 include:example.com ?all"]).policy = spfDefault.policy := by
  decide

/-- Claim C6 counterexample: with a first SPF record containing `-all`
followed by a second matching record containing only `~all`, the parser
returns policy `~all`, not the `-all` the claim predicts — later matching
records DO change the classification. -/
theorem claim_C6_counterexample :
    (analyzeSpf ["v=spf1 -all", "v=spf1 ~all"]).policy = "~all"
    ∧ ((analyzeSpf ["v=spf1 -all", "v=spf1 ~all"]).policy = "-all" → False) := by
  decide

/-- Claim C6 (amended): the SPF loop keeps scanning and re-classifies on
every matching record, so the LAST record beginning with `v=spf1` that
contains `-all` (or, failing that, `~all`) determines the final policy;
a matching record containing neither token only sets `present` and leaves
everything else unchanged. -/
theorem claim_C6_amended :
    ∀ (earlier : List String) (txt : String),
      (strStarts (toLowerStr txt) "v=spf1" = true →
        containsSub (toLowerStr txt) "-all" = true →
        (analyzeSpf (earlier ++ [txt])).policy = "-all"
          ∧ (analyzeSpf (earlier ++ [txt])).present = true)
      ∧ (strStarts (toLowerStr txt) "v=spf1" = true →
        containsSub (toLowerStr txt) "-all" = false →
        containsSub (toLowerStr txt) "~all" = true →
        (analyzeSpf (earlier ++ [txt])).policy = "~all"
          ∧ (analyzeSpf (earlier ++ [txt])).present = true)
      ∧ (∀ f : SpfFinding, strStarts (toLowerStr txt) "v=spf1" = true →
        containsSub (toLowerStr txt) "-all" = false →
        containsSub (toLowerStr txt) "~all" = false →
        spfStep f txt = { f with present := true }) := by
  intro earlier txt
  have hfold : analyzeSpf (earlier ++ [txt]) = spfStep (analyzeSpf earlier) txt := by
    unfold analyzeSpf
    rw [List.foldl_append]
    rfl
  refine ⟨?_, ?_, ?_⟩
  · intro h1 h2
    rw [hfold]
    unfold spfStep
    rw [if_pos h1, if_pos h2]
    exact ⟨rfl, rfl⟩
  · intro h1 h2 h3
    rw [hfold]
    unfold spfStep
    rw [if_pos h1, if_neg (by simp [h2]), if_pos h3]
    exact ⟨rfl, rfl⟩
  · intro f h1 h2 h3
    unfold spfStep
    rw [if_pos h1, if_neg (by simp [h2]), if_neg (by simp [h3])]

/-- Witness for the amended claim C6: an earlier `~all` record followed by
a final `-all` record yields policy `-all`. -/
theorem claim_C6_amended_witness :
    (analyzeSpf (["v=spf1 ~all"] ++ ["v=spf1 -all"])).policy = "-all"
    ∧ (analyzeSpf (["v=spf1 ~all"] ++ ["v=spf1 -all"])).present = true :=
  (claim_C6_amended ["v=spf1 ~all"] "v=spf1 -all").1 (by decide) (by decide)

/-- Claim C7: on every non-success resolution outcome (NXDOMAIN, NoAnswer,
Timeout, or any other exception) both gateway functions return the empty
sequence rather than propagating the failure, and every dependent
mechanism finding computed from that empty sequence has `present = false`. -/
theorem claim_C7 :
    ∀ (o : DnsOutcome String) (om : DnsOutcome (Nat × String)),
      (∀ l, o = DnsOutcome.success l → False) →
      (∀ l, om = DnsOutcome.success l → False) →
      fetch_txt_record o = []
      ∧ fetch_mx_records om = []
      ∧ (analyzeSpf (fetch_txt_record o)).present = false
      ∧ (analyzeDmarc (fetch_txt_record o)).present = false
      ∧ (analyzeBimi (fetch_txt_record o)).present = false
      ∧ (analyzeMtaSts (fetch_txt_record o)).present = false
      ∧ (analyzeDkim (fun _ => fetch_txt_record o)).present = false
      ∧ (buildMxFinding (fetch_mx_records om) []).present = false := by
  intro o om h1 h2
  have ht : fetch_txt_record o = [] := by
    cases o with
    | success l => exact (h1 l rfl).elim
    | nxdomain => rfl
    | noAnswer => rfl
    | timeout => rfl
    | otherError m => rfl
  have hm : fetch_mx_records om = [] := by
    cases om with
    | success l => exact (h2 l rfl).elim
    | nxdomain => rfl
    | noAnswer => rfl
    | timeout => rfl
    | otherError m => rfl
  rw [ht, hm]
  refine ⟨rfl, rfl, ?_, ?_, ?_, ?_, ?_, ?_⟩ <;> decide

/-- Witness for claim C7 at the concrete `Timeout` outcome. -/
theorem claim_C7_witness :
    fetch_txt_record (DnsOutcome.timeout : DnsOutcome String) = []
    ∧ fetch_mx_records (DnsOutcome.timeout : DnsOutcome (Nat × String)) = []
    ∧ (analyzeSpf (fetch_txt_record (DnsOutcome.timeout : DnsOutcome String))).present = false
    ∧ (analyzeDmarc (fetch_txt_record (DnsOutcome.timeout : DnsOutcome String))).present = false
    ∧ (analyzeBimi (fetch_txt_record (DnsOutcome.timeout : DnsOutcome String))).present = false
    ∧ (analyzeMtaSts (fetch_txt_record (DnsOutcome.timeout : DnsOutcome String))).present = false
    ∧ (analyzeDkim (fun _ => fetch_txt_record (DnsOutcome.timeout : DnsOutcome String))).present = false
    ∧ (buildMxFinding (fetch_mx_records (DnsOutcome.timeout : DnsOutcome (Nat × String))) []).present = false :=
  claim_C7 DnsOutcome.timeout DnsOutcome.timeout
    (fun _ h => nomatch h) (fun _ h => nomatch h)

/-! Monotonicity of presence: a fold whose result is absent never
left the initial dictionary -/

theorem spfStep_id_of_present_false (f : SpfFinding) (txt : String)
    (h : (spfStep f txt).present = false) : spfStep f txt = f := by
  unfold spfStep at h ⊢
  split_ifs at h ⊢
  all_goals simp_all

theorem spf_foldl_id (records : List String) (f : SpfFinding)
    (h : (records.foldl spfStep f).present = false) : records.foldl spfStep f = f := by
  induction records generalizing f with
  | nil => rfl
  | cons r rs ih =>
    rw [List.foldl_cons] at h ⊢
    have h2 := ih (spfStep f r) h
    rw [h2] at h ⊢
    exact spfStep_id_of_present_false f r h

theorem dmarcStep_id_of_present_false (f : DmarcFinding) (txt : String)
    (h : (dmarcStep f txt).present = false) : dmarcStep f txt = f := by
  unfold dmarcStep at h ⊢
  split_ifs at h ⊢
  all_goals simp_all

theorem dmarc_foldl_id (records : List String) (f : DmarcFinding)
    (h : (records.foldl dmarcStep f).present = false) : records.foldl dmarcStep f = f := by
  induction records generalizing f with
  | nil => rfl
  | cons r rs ih =>
    rw [List.foldl_cons] at h ⊢
    have h2 := ih (dmarcStep f r) h
    rw [h2] at h ⊢
    exact dmarcStep_id_of_present_false f r h

theorem bimiStep_id_of_present_false (f : BimiFinding) (txt : String)
    (h : (bimiStep f txt).present = false) : bimiStep f txt = f := by
  unfold bimiStep at h ⊢
  split_ifs at h ⊢
  all_goals simp_all

theorem bimi_foldl_id (records : List String) (f : BimiFinding)
    (h : (records.foldl bimiStep f).present = false) : records.foldl bimiStep f = f := by
  induction records generalizing f with
  | nil => rfl
  | cons r rs ih =>
    rw [List.foldl_cons] at h ⊢
    have h2 := ih (bimiStep f r) h
    rw [h2] at h ⊢
    exact bimiStep_id_of_present_false f r h

theorem mtaStsStep_id_of_present_false (f : MtaStsFinding) (txt : String)
    (h : (mtaStsStep f txt).present = false) : mtaStsStep f txt = f := by
  unfold mtaStsStep at h ⊢
  split_ifs at h ⊢
  all_goals simp_all

theorem mtaSts_foldl_id (records : List String) (f : MtaStsFinding)
    (h : (records.foldl mtaStsStep f).present = false) : records.foldl mtaStsStep f = f := by
  induction records generalizing f with
  | nil => rfl
  | cons r rs ih =>
    rw [List.foldl_cons] at h ⊢
    have h2 := ih (mtaStsStep f r) h
    rw [h2] at h ⊢
    exact mtaStsStep_id_of_present_false f r h

theorem dkimRecordStep_id_of_false (sel : String) (st : Nat × List String × Bool)
    (txt : String) (h : (dkimRecordStep sel st txt).2.2 = false) :
    dkimRecordStep sel st txt = st := by
  unfold dkimRecordStep at h ⊢
  split_ifs at h ⊢
  all_goals simp_all

theorem dkim_inner_foldl_id (sel : String) (recs : List String)
    (st : Nat × List String × Bool)
    (h : (recs.foldl (dkimRecordStep sel) st).2.2 = false) :
    recs.foldl (dkimRecordStep sel) st = st := by
  induction recs generalizing st with
  | nil => rfl
  | cons r rs ih =>
    rw [List.foldl_cons] at h ⊢
    have h2 := ih (dkimRecordStep sel st r) h
    rw [h2] at h ⊢
    exact dkimRecordStep_id_of_false sel st r h

theorem dkim_outer_foldl_id (fetch : String → List String) (sels : List String)
    (st : Nat × List String × Bool)
    (h : (sels.foldl (dkimSelectorStep fetch) st).2.2 = false) :
    sels.foldl (dkimSelectorStep fetch) st = st := by
  induction sels generalizing st with
  | nil => rfl
  | cons sel ss ih =>
    rw [List.foldl_cons] at h ⊢
    have h2 := ih (dkimSelectorStep fetch st sel) h
    rw [h2] at h ⊢
    exact dkim_inner_foldl_id sel (fetch sel) st h

/-- Claim C8: for every mechanism finding produced by the analysis, an
absent finding carries exactly the missing sentinel of its mechanism and its
default remediation text: SPF and DMARC keep `policy = "Missing"` and the
default recommendation, DKIM keeps `count = 0`, an empty selectors list
and its default recommendation, and BIMI / MTA-STS keep `record = none`
and their default recommendations. -/
theorem claim_C8 :
    (∀ recs, (analyzeSpf recs).present = false →
      (analyzeSpf recs).policy = "Missing"
        ∧ (analyzeSpf recs).recommendation = spfDefault.recommendation)
    ∧ (∀ recs, (analyzeDmarc recs).present = false →
      (analyzeDmarc recs).policy = "Missing"
        ∧ (analyzeDmarc recs).recommendation = dmarcDefault.recommendation)
    ∧ (∀ fetch : String → List String, (analyzeDkim fetch).present = false →
      (analyzeDkim fetch).count = 0
        ∧ (analyzeDkim fetch).selectors = []
        ∧ (analyzeDkim fetch).recommendation = "Add selectors for verified sending")
    ∧ (∀ recs, (analyzeBimi recs).present = false →
      (analyzeBimi recs).record = none
        ∧ (analyzeBimi recs).recommendation = bimiDefault.recommendation)
    ∧ (∀ recs, (analyzeMtaSts recs).present = false →
      (analyzeMtaSts recs).record = none
        ∧ (analyzeMtaSts recs).recommendation = mtaStsDefault.recommendation) := by
  refine ⟨?_, ?_, ?_, ?_, ?_⟩
  · intro recs h
    have h2 : analyzeSpf recs = spfDefault := spf_foldl_id recs spfDefault h
    rw [h2]
    exact ⟨rfl, rfl⟩
  · intro recs h
    have h2 : analyzeDmarc recs = dmarcDefault := dmarc_foldl_id recs dmarcDefault h
    rw [h2]
    exact ⟨rfl, rfl⟩
  · intro fetch h
    have h2 : common_selectors.foldl (dkimSelectorStep fetch) (0, [], false) = (0, [], false) :=
      dkim_outer_foldl_id fetch common_selectors (0, [], false) h
    unfold analyzeDkim
    rw [h2]
    exact ⟨rfl, rfl, rfl⟩
  · intro recs h
    have h2 : analyzeBimi recs = bimiDefault := bimi_foldl_id recs bimiDefault h
    rw [h2]
    exact ⟨rfl, rfl⟩
  · intro recs h
    have h2 : analyzeMtaSts recs = mtaStsDefault := mtaSts_foldl_id recs mtaStsDefault h
    rw [h2]
    exact ⟨rfl, rfl⟩

/-- Witness for claim C8 at the concrete empty record lists. -/
theorem claim_C8_witness :
    (analyzeSpf []).policy = "Missing"
    ∧ (analyzeSpf []).recommendation = spfDefault.recommendation
    ∧ (analyzeDmarc []).policy = "Missing"
    ∧ (analyzeDkim (fun _ => [])).count = 0
    ∧ (analyzeBimi []).record = none
    ∧ (analyzeMtaSts []).record = none :=
  ⟨(claim_C8.1 [] (by decide)).1, (claim_C8.1 [] (by decide)).2,
    (claim_C8.2.1 [] (by decide)).1,
    (claim_C8.2.2.1 (fun _ => []) (by decide)).1,
    (claim_C8.2.2.2.1 [] (by decide)).1,
    (claim_C8.2.2.2.2 [] (by decide)).1⟩

/-! DKIM count and presence characterization -/

theorem dkimRecordStep_count (sel : String) (recs : List String)
    (st : Nat × List String × Bool) :
    (recs.foldl (dkimRecordStep sel) st).1 = st.1 + recs.countP dkimMatches := by
  induction recs generalizing st with
  | nil => simp
  | cons r rs ih =>
    rw [List.foldl_cons, ih, List.countP_cons]
    unfold dkimRecordStep
    by_cases h : dkimMatches r = true
    · rw [if_pos h, if_pos h]
      omega
    · rw [if_neg h, if_neg h]
      omega

theorem dkimRecordStep_present (sel : String) (recs : List String)
    (st : Nat × List String × Bool) :
    (recs.foldl (dkimRecordStep sel) st).2.2 = (st.2.2 || recs.any dkimMatches) := by
  induction recs generalizing st with
  | nil => simp
  | cons r rs ih =>
    rw [List.foldl_cons, ih, List.any_cons]
    unfold dkimRecordStep
    by_cases h : dkimMatches r = true
    · rw [if_pos h, h]
      simp
    · rw [if_neg h]
      have h2 : dkimMatches r = false := by simpa using h
      rw [h2]
      simp

theorem dkimSelector_count (fetch : String → List String) (sels : List String)
    (st : Nat × List String × Bool) :
    (sels.foldl (dkimSelectorStep fetch) st).1 =
      st.1 + (sels.map (fun sel => (fetch sel).countP dkimMatches)).sum := by
  induction sels generalizing st with
  | nil => simp
  | cons sel ss ih =>
    rw [List.foldl_cons, ih]
    unfold dkimSelectorStep
    rw [dkimRecordStep_count]
    simp [Nat.add_assoc]

theorem dkimSelector_present (fetch : String → List String) (sels : List String)
    (st : Nat × List String × Bool) :
    (sels.foldl (dkimSelectorStep fetch) st).2.2 =
      (st.2.2 || sels.any (fun sel => (fetch sel).any dkimMatches)) := by
  induction sels generalizing st with
  | nil => simp
  | cons sel ss ih =>
    rw [List.foldl_cons, ih]
    unfold dkimSelectorStep
    rw [dkimRecordStep_present]
    simp [Bool.or_assoc]

/-- The probe map of the C4 counterexample: the single selector `google`
answers with five TXT strings that all contain `v=dkim1`. -/
def dkimCounterFetch : String → List String := fun s =>
  if s = "google" then
    ["v=DKIM1 a", "v=DKIM1 b", "v=DKIM1 c", "v=DKIM1 d", "v=DKIM1 e"]
  else []

/-- Claim C4 counterexample: the inner loop increments `count` once per
matching TXT string, not once per selector, so a single selector whose
response holds five `v=dkim1` strings yields `count = 5 > 4`. -/
theorem claim_C4_counterexample :
    (analyzeDkim dkimCounterFetch).count = 5
    ∧ ((analyzeDkim dkimCounterFetch).count ≤ 4 → False) := by
  decide

/-- Claim C4 (amended): `count` equals the total number of fetched TXT
strings containing `v=dkim1` across the four probes — a selector whose
response has several matching strings contributes once per string, so the
bound is the total number of returned strings rather than 4 — and
`present == (count > 0)` does hold. -/
theorem claim_C4_amended :
    ∀ fetch : String → List String,
      ((analyzeDkim fetch).present = true ↔ 0 < (analyzeDkim fetch).count)
      ∧ (analyzeDkim fetch).count =
          ((common_selectors.map fetch).flatten).countP dkimMatches
      ∧ (analyzeDkim fetch).count ≤ ((common_selectors.map fetch).flatten).length := by
  intro fetch
  have hc : (analyzeDkim fetch).count =
      (common_selectors.map (fun sel => (fetch sel).countP dkimMatches)).sum := by
    show (common_selectors.foldl (dkimSelectorStep fetch) (0, [], false)).1 = _
    rw [dkimSelector_count]
    simp
  have hc2 : (analyzeDkim fetch).count =
      ((common_selectors.map fetch).flatten).countP dkimMatches := by
    rw [hc, List.countP_flatten, List.map_map]
    rfl
  have hp : (analyzeDkim fetch).present =
      common_selectors.any (fun sel => (fetch sel).any dkimMatches) := by
    show (common_selectors.foldl (dkimSelectorStep fetch) (0, [], false)).2.2 = _
    rw [dkimSelector_present]
    simp
  refine ⟨?_, hc2, hc2 ▸ List.countP_le_length _⟩
  rw [hp, hc2, List.countP_pos_iff]
  constructor
  · intro h
    obtain ⟨sel, hsel, hany⟩ := List.any_eq_true.mp h
    obtain ⟨t, ht, hm⟩ := List.any_eq_true.mp hany
    exact ⟨t, List.mem_flatten.mpr ⟨fetch sel, List.mem_map_of_mem _ hsel, ht⟩, hm⟩
  · rintro ⟨t, htmem, hm⟩
    obtain ⟨l, hl, ht⟩ := List.mem_flatten.mp htmem
    obtain ⟨sel, hsel, rfl⟩ := List.mem_map.mp hl
    exact List.any_eq_true.mpr ⟨sel, hsel, List.any_eq_true.mpr ⟨t, ht, hm⟩⟩

/-! Quote stripping -/

theorem takeWhile_dropWhile_nil {α : Type} (p : α → Bool) (l : List α) :
    (l.dropWhile p).takeWhile p = [] := by
  induction l with
  | nil => rfl
  | cons a t ih =>
    rw [List.dropWhile_cons]
    split_ifs with h
    · exact ih
    · rw [List.takeWhile_cons, if_neg h]

/-- Claim C9 counterexample: a raw TXT payload wrapped in TWO layers of
double quotes comes back with BOTH layers removed (the Python strip
removes the whole run of quotes), not just one layer as the claim
states. -/
theorem claim_C9_counterexample :
    fetch_txt_record (DnsOutcome.success ["\"\"abc\"\""]) = ["abc"]
    ∧ (fetch_txt_record (DnsOutcome.success ["\"\"abc\"\""]) = ["\"abc\""] → False) := by
  decide

/-- Claim C9 (amended): the gateway strips ALL leading and trailing
double-quote characters from each raw payload: every payload splits as a
run of quotes, the returned text, and another run of quotes, and the
returned text neither starts nor ends with a quote. -/
theorem claim_C9_amended :
    ∀ s : String,
      (∃ n m : Nat, s.data =
        List.replicate n '"' ++ (stripQuotes s).data ++ List.replicate m '"')
      ∧ (stripQuotes s).data.takeWhile isQuote = []
      ∧ (stripQuotes s).data.reverse.takeWhile isQuote = []
      ∧ ∀ l, fetch_txt_record (DnsOutcome.success l) = l.map stripQuotes := by
  intro s
  have hchar : ∀ b : Char, isQuote b = true → b = '"' := fun b hb => by
    simpa [isQuote] using hb
  have h1 : s.data =
      List.replicate (s.data.takeWhile isQuote).length '"' ++ s.data.dropWhile isQuote := by
    conv_lhs => rw [← List.takeWhile_append_dropWhile isQuote s.data]
    congr 1
    exact List.eq_replicate_of_mem (fun b hb => hchar b (List.mem_takeWhile_imp hb))
  have h2 : s.data.dropWhile isQuote =
      (stripQuotes s).data ++
        List.replicate ((s.data.dropWhile isQuote).reverse.takeWhile isQuote).length '"' := by
    conv_lhs => rw [← List.reverse_reverse (s.data.dropWhile isQuote),
      ← List.takeWhile_append_dropWhile isQuote (s.data.dropWhile isQuote).reverse]
    rw [List.reverse_append]
    congr 1
    have hr : (s.data.dropWhile isQuote).reverse.takeWhile isQuote =
        List.replicate ((s.data.dropWhile isQuote).reverse.takeWhile isQuote).length '"' :=
      List.eq_replicate_of_mem (fun b hb => hchar b (List.mem_takeWhile_imp hb))
    conv_lhs => rw [hr]
    rw [List.reverse_replicate]
  refine ⟨⟨(s.data.takeWhile isQuote).length,
      ((s.data.dropWhile isQuote).reverse.takeWhile isQuote).length, ?_⟩, ?_, ?_, fun l => rfl⟩
  · conv_lhs => rw [h1, h2]
    rw [List.append_assoc]
  · cases hcc : (stripQuotes s).data with
    | nil => simp
    | cons c t =>
      have hnil : (s.data.dropWhile isQuote).takeWhile isQuote = [] :=
        takeWhile_dropWhile_nil isQuote s.data
      rw [h2, hcc, List.cons_append, List.takeWhile_cons] at hnil
      by_cases hqc : isQuote c = true
      · rw [if_pos hqc] at hnil
        exact absurd hnil (by simp)
      · rw [List.takeWhile_cons, if_neg hqc]
  · have hrev : (stripQuotes s).data.reverse =
        (s.data.dropWhile isQuote).reverse.dropWhile isQuote := by
      show (((s.data.dropWhile isQuote).reverse.dropWhile isQuote).reverse).reverse = _
      rw [List.reverse_reverse]
    rw [hrev]
    exact takeWhile_dropWhile_nil isQuote (s.data.dropWhile isQuote).reverse

/-- Witness for the amended claim C4 at a concrete probe map: one matching
string under the selector default. -/
theorem claim_C4_amended_witness :
    (analyzeDkim (fun s => if s = "default" then ["v=DKIM1 t"] else [])).count =
      ((common_selectors.map (fun s => if s = "default" then ["v=DKIM1 t"] else [])).flatten).countP
        dkimMatches :=
  (claim_C4_amended (fun s => if s = "default" then ["v=DKIM1 t"] else [])).2.1

/-- Witness for the amended claim C9 at a concrete doubly-quoted payload. -/
theorem claim_C9_amended_witness :
    (stripQuotes "\"\"abc\"\"").data.takeWhile isQuote = []
    ∧ (stripQuotes "\"\"abc\"\"").data.reverse.takeWhile isQuote = [] :=
  ⟨(claim_C9_amended "\"\"abc\"\"").2.1, (claim_C9_amended "\"\"abc\"\"").2.2.1⟩
